import Mathlib

/-!
# Verification of the Person CRUD service

Shallow embedding of `src/api/v2/views/persons.py` and `src/models/person.py`:
a Flask-style CRUD API over a single `Person` table (columns `id`, integer
primary key, and `name`, a unique non-nullable string).

Python runtime behaviour that the handlers can trigger is modelled
explicitly: attribute lookup failure (`AttributeError`), reading a local
variable before assignment (`UnboundLocalError`), ordering comparison between
`str` and `int` (`TypeError`), and a violated SQL constraint at commit time
(`IntegrityError`).  An uncaught exception surfaces as an HTTP 500, distinct
from the deliberate `abort(status, description)` responses.
-/

namespace CrudApi

/-- A Python value appearing as a path token or a JSON field value
(the handlers only ever inspect strings and integers). -/
inductive PyVal
  | int (n : Int)
  | str (s : String)
deriving DecidableEq, Repr

/-- Python truthiness of the values in `PyVal`: `0` and `""` are falsy. -/
def PyVal.truthy : PyVal → Bool
  | .int n => n != 0
  | .str s => s != ""

/-- Uncaught Python exceptions the handlers can raise. -/
inductive PyErr
  | attributeError
  | unboundLocalError
  | typeError
  | integrityError
deriving DecidableEq, Repr

/-- A row of the `Person` table (`src/models/person.py` lines 15-16). -/
structure Person where
  id : Nat
  name : String
deriving DecidableEq, Repr

/-- The database table backing the service. -/
abbrev Store := List Person

/-- `Person.validate_id` (`src/models/person.py` lines 18-29):
`if person_id and person_id > 0 and isinstance(person_id, int)`.
Evaluation is left to right with short-circuiting, so a truthy string
reaches the comparison `person_id > 0` and raises `TypeError`
(`str` and `int` are not ordered in Python 3); the `isinstance` check
comes last and is only reached by positive integers. -/
def Person.validate_id (person_id : PyVal) : Except PyErr Bool :=
  if ¬ person_id.truthy then .ok false
  else match person_id with
    | .str _ => .error .typeError
    | .int n => .ok (decide (0 < n))

/-- The attributes the `Person` class defines in `src/models/person.py`:
the two mapped columns and the one static method.  `validate_name` is not
among them. -/
def Person.classAttrs : List String := ["id", "name", "validate_id"]

/-- Modelled from the spec: `Person.validate_name` is called by every view
handler but is defined nowhere in the source; the spec requires the `name`
to be a non-empty string, so this is the check the handlers intend. -/
def validate_name_spec : PyVal → Bool
  | .str s => !(s == "")
  | .int _ => false

/-- The call `Person.validate_name(x)` as the interpreter resolves it:
look the attribute up on the `Person` class; if it were defined it would
run the intended check, but it is absent, so the lookup raises
`AttributeError`. -/
def validate_name_call (v : PyVal) : Except PyErr Bool :=
  if "validate_name" ∈ Person.classAttrs then .ok (validate_name_spec v)
  else .error .attributeError

/-- The guard as the shipped code evaluates it. -/
def vnActual : PyVal → Except PyErr Bool := validate_name_call

/-- The guard with `validate_name` behaving as the spec describes. -/
def vnSpec : PyVal → Except PyErr Bool := fun v => .ok (validate_name_spec v)

/-- `markupsafe.escape` on one character: the five HTML-significant
characters become entities (`&amp;`, `&lt;`, `&gt;`, `&#34;`, `&#39;`). -/
def escapeChar (c : Char) : String :=
  if c = '&' then "&amp;"
  else if c = '<' then "&lt;"
  else if c = '>' then "&gt;"
  else if c.toNat = 34 then "&#34;"
  else if c.toNat = 39 then "&#39;"
  else String.singleton c

/-- `markupsafe.escape` on a string. -/
def escape (s : String) : String :=
  String.join (s.toList.map escapeChar)

/-- `str(x)` then escape, as `escape` stringifies non-string input. -/
def escapeVal : PyVal → String
  | .str s => escape s
  | .int n => escape (toString n)

/-- `Person.query.filter_by(name=user_id).first()`: the first row whose
`name` column equals the token (a non-string token matches no row of the
string column). -/
def nameLookup (st : Store) (tok : PyVal) : Option Person :=
  match tok with
  | .str s => st.find? (fun p => p.name = s)
  | .int _ => none

/-- `db.session.get(Person, user_id)`: primary-key lookup. -/
def idLookup (st : Store) (tok : PyVal) : Option Person :=
  match tok with
  | .int n => st.find? (fun p => (p.id : Int) = n)
  | .str _ => none

/-- Outcome of the shared resolve logic (lines 33-41, 88-96, 113-121 of
`src/api/v2/views/persons.py`). -/
inductive Resolved
  | found (p : Person)
  | httpAbort (status : Nat) (description : String)
  | exc (e : PyErr)
deriving DecidableEq, Repr

/-- The token-resolution block shared verbatim by Get, Update and Delete,
parameterised by the guard `vn` standing for the call
`Person.validate_name(user_id)`:

    if Person.validate_name(user_id):
        person = Person.query.filter_by(name=user_id).first()
    if not person:
        if Person.validate_id(user_id):
            person = db.get_or_404(Person, user_id, description="User not found")
        else:
            abort(404, description="UID must be a positive integer or valid string")

The local `person` is assigned only when the guard is true; the test
`if not person:` reads it, raising `UnboundLocalError` when it was never
assigned. -/
def resolveTok (vn : PyVal → Except PyErr Bool) (st : Store) (tok : PyVal) :
    Resolved :=
  match vn tok with
  | .error e => .exc e
  | .ok b =>
    match (if b then some (nameLookup st tok) else none : Option (Option Person)) with
    | none => .exc .unboundLocalError
    | some (some p) => .found p
    | some none =>
      match Person.validate_id tok with
      | .error e => .exc e
      | .ok true =>
        match idLookup st tok with
        | some p => .found p
        | none => .httpAbort 404 "User not found"
      | .ok false => .httpAbort 404 "UID must be a positive integer or valid string"

/-- JSON bodies the handlers inspect: a parsed JSON object
(`request.get_json()` wrapped in `Option`, `none` when no JSON body is
available). -/
abbrev JsonBody := List (String × PyVal)

/-- `request.get_json().get('name')` / the membership test `'name' in body`. -/
def getName (fields : JsonBody) : Option PyVal :=
  (fields.find? (fun kv => kv.1 = "name")).map (·.2)

/-- Response body shapes produced by `jsonify`. -/
inductive RespBody
  | persons (ps : List Person)
  | person (p : Person)
  | empty
deriving DecidableEq, Repr

/-- What one request produces: a deliberate response, a deliberate
`abort(status, description)`, or an uncaught exception (HTTP 500). -/
inductive Outcome
  | ok (status : Nat) (body : RespBody)
  | httpAbort (status : Nat) (description : String)
  | exc (e : PyErr)
deriving DecidableEq, Repr

/-- The `name` column of every row. -/
def namesOf (st : Store) : List String := st.map (·.name)

/-- The table constraints of `src/models/person.py`: `id` is the primary
key and `name` carries `unique=True`. -/
def storeOK (st : Store) : Bool :=
  decide (namesOf st).Nodup && decide (st.map (·.id)).Nodup

/-- `db.session.commit()`: the database accepts the new table state only if
its constraints hold, otherwise it raises `IntegrityError` (and the caller
keeps the old state). -/
def commit (new : Store) : Except PyErr Store :=
  if storeOK new then .ok new else .error .integrityError

/-- The autoincrement primary key the storage layer assigns at creation. -/
def nextId (st : Store) : Nat :=
  st.foldr (fun p acc => max p.id acc) 0 + 1

/-- Ascending order on the `id` column. -/
def ridRel (a b : Person) : Prop := a.id ≤ b.id

instance : DecidableRel ridRel := fun a b => Nat.decLe a.id b.id

instance : IsTotal Person ridRel := ⟨fun a b => Nat.le_total a.id b.id⟩

instance : IsTrans Person ridRel := ⟨fun _ _ _ => Nat.le_trans⟩

/-- `db.select(Person).order_by(Person.id)`: the rows sorted by ascending
`id`. -/
def sortById (st : Store) : List Person := List.insertionSort ridRel st

/-- `view_persons` (GET on the collection, lines 12-21): list every row
ordered by `id` and answer 200.  The store is read, never written. -/
def view_persons (st : Store) : Outcome × Store :=
  (.ok 200 (.persons (sortById st)), st)

/-- `view_person_by_id` (GET on one token, lines 24-42), parameterised by
the guard `vn` for the `Person.validate_name` call. -/
def view_person_by_id (vn : PyVal → Except PyErr Bool) (st : Store)
    (tok : PyVal) : Outcome × Store :=
  match resolveTok vn st tok with
  | .found p => (.ok 200 (.person p), st)
  | .httpAbort s d => (.httpAbort s d, st)
  | .exc e => (.exc e, st)

/-- `create_person` (POST, lines 45-65).  `if not request.get_json()` is a
truthiness test, so both a missing body and the empty object `{}` take the
"Not a JSON" branch. -/
def create_person (vn : PyVal → Except PyErr Bool) (st : Store)
    (body : Option JsonBody) : Outcome × Store :=
  match body with
  | none => (.httpAbort 400 "Not a JSON", st)
  | some fields =>
    if fields = [] then (.httpAbort 400 "Not a JSON", st)
    else match getName fields with
    | none => (.httpAbort 400 "Missing name", st)
    | some nameV =>
      match vn nameV with
      | .error e => (.exc e, st)
      | .ok false => (.httpAbort 400 "Name must be a string", st)
      | .ok true =>
        let p : Person := { id := nextId st, name := escapeVal nameV }
        match commit (st ++ [p]) with
        | .ok st2 => (.ok 201 (.person p), st2)
        | .error e => (.exc e, st)

/-- `update_person` (PUT, lines 68-100): the body checks of Create, then
the shared resolve, then `person.name = escape(name); db.session.commit()`. -/
def update_person (vn : PyVal → Except PyErr Bool) (st : Store)
    (tok : PyVal) (body : Option JsonBody) : Outcome × Store :=
  match body with
  | none => (.httpAbort 400 "Not a JSON", st)
  | some fields =>
    if fields = [] then (.httpAbort 400 "Not a JSON", st)
    else match getName fields with
    | none => (.httpAbort 400 "Missing name", st)
    | some nameV =>
      match vn nameV with
      | .error e => (.exc e, st)
      | .ok false => (.httpAbort 400 "Name must be a string", st)
      | .ok true =>
        match resolveTok vn st tok with
        | .exc e => (.exc e, st)
        | .httpAbort s d => (.httpAbort s d, st)
        | .found p =>
          let newName := escapeVal nameV
          let st2 := st.map (fun q => if q.id = p.id then { q with name := newName } else q)
          match commit st2 with
          | .ok st3 => (.ok 200 (.person { p with name := newName }), st3)
          | .error e => (.exc e, st)

/-- `delete_person` (DELETE, lines 103-124): the shared resolve, then
`db.session.delete(person); db.session.commit()` and a 204 with `{}`. -/
def delete_person (vn : PyVal → Except PyErr Bool) (st : Store)
    (tok : PyVal) : Outcome × Store :=
  match resolveTok vn st tok with
  | .exc e => (.exc e, st)
  | .httpAbort s d => (.httpAbort s d, st)
  | .found p =>
    let st2 := st.filter (fun q => q.id ≠ p.id)
    match commit st2 with
    | .ok st3 => (.ok 204 .empty, st3)
    | .error e => (.exc e, st)

/-- The stores reachable from the empty table through the five handlers,
for a fixed behaviour `vn` of the `Person.validate_name` call. -/
inductive Reachable (vn : PyVal → Except PyErr Bool) : Store → Prop
  | empty : Reachable vn []
  | list (st : Store) : Reachable vn st → Reachable vn (view_persons st).2
  | get (st : Store) (tok : PyVal) : Reachable vn st →
      Reachable vn (view_person_by_id vn st tok).2
  | create (st : Store) (body : Option JsonBody) : Reachable vn st →
      Reachable vn (create_person vn st body).2
  | update (st : Store) (tok : PyVal) (body : Option JsonBody) :
      Reachable vn st → Reachable vn (update_person vn st tok body).2
  | delete (st : Store) (tok : PyVal) : Reachable vn st →
      Reachable vn (delete_person vn st tok).2

/-! ## Helper lemmas -/

/-- A committed store satisfies the `unique=True` constraint on `name`. -/
theorem commit_ok_nodup (new st2 : Store) (h : commit new = .ok st2) :
    (namesOf st2).Nodup := by
  unfold commit at h
  split at h
  · next hOK =>
    cases h
    simp only [storeOK, Bool.and_eq_true, decide_eq_true_eq] at hOK
    exact hOK.1
  · cases h

/-- A committed store is the proposed one. -/
theorem commit_ok_eq (new st2 : Store) (h : commit new = .ok st2) :
    st2 = new := by
  unfold commit at h
  split at h
  · cases h; rfl
  · cases h

/-- A record found by the shared resolve logic is a row of the store. -/
theorem resolve_found_mem (vn : PyVal → Except PyErr Bool) (st : Store)
    (tok : PyVal) (p : Person) (h : resolveTok vn st tok = .found p) :
    p ∈ st := by
  unfold resolveTok at h
  split at h
  · exact absurd h (by simp)
  · split at h
    · exact absurd h (by simp)
    · next heq =>
      cases h
      split at heq
      · unfold nameLookup at heq
        split at heq
        · exact List.mem_of_find?_eq_some (Option.some.inj heq)
        · cases heq
      · cases heq
    · split at h
      · exact absurd h (by simp)
      · split at h
        · next heq =>
          cases h
          unfold idLookup at heq
          split at heq
          · exact List.mem_of_find?_eq_some heq
          · cases heq
        · exact absurd h (by simp)
      · exact absurd h (by simp)

/-- Get never writes the store. -/
theorem view_person_by_id_store (vn : PyVal → Except PyErr Bool)
    (st : Store) (tok : PyVal) : (view_person_by_id vn st tok).2 = st := by
  unfold view_person_by_id
  split <;> rfl

/-! ## Claim theorems -/

/-- Claim C1: the spec describes name-first resolution with 404 fallbacks,
but on the code every Get resolution crashes at its very first step: the
call `Person.validate_name(user_id)` raises `AttributeError` (the class has
no such attribute), so the described name/id logic and its 404 responses
are unreachable.  Evaluated at token "abc" on the empty store, where the
claim requires the 404 invalid-id-format response. -/
theorem c1_resolution_crashes_instead_of_404 :
    view_person_by_id vnActual [] (.str "abc")
      = (.exc .attributeError, []) ∧
    view_person_by_id vnActual [] (.str "abc")
      ≠ (.httpAbort 404 "UID must be a positive integer or valid string", []) := by
  decide

/-- Claim C2: in the shared resolve logic, whenever the first branch's
guard (the `Person.validate_name(user_id)` call) evaluates to `False`, the
local `person` was never assigned and the very next line `if not person:`
reads it, raising `UnboundLocalError` — for every store and token. -/
theorem c2_person_read_before_assignment
    (vn : PyVal → Except PyErr Bool) (st : Store) (tok : PyVal)
    (h : vn tok = .ok false) :
    resolveTok vn st tok = .exc .unboundLocalError := by
  unfold resolveTok
  rw [h]
  rfl

/-- Witness for C2: with the guard behaving as the spec describes
`validate_name` (non-empty string test), the integer token `1` — admitted
by the handler signature `Union[int, str]` — misses the name branch and
hits the unassigned read. -/
theorem c2_witness :
    vnSpec (.int 1) = .ok false ∧
    resolveTok vnSpec [] (.int 1) = .exc .unboundLocalError :=
  ⟨rfl, c2_person_read_before_assignment vnSpec [] (.int 1) rfl⟩

/-- Claim C3: Create's body validation evaluated on the code.  A missing
body does answer 400 "Not a JSON"; but the body `{}` is a falsy dict, so
`if not request.get_json()` also answers 400 "Not a JSON" (the claim says
400 "Missing name"); and `{"name": 123}` reaches the undefined
`Person.validate_name`, raising `AttributeError` (HTTP 500) instead of the
claimed 400 invalid-name response. -/
theorem c3_create_validation_eval :
    create_person vnActual [] none = (.httpAbort 400 "Not a JSON", []) ∧
    create_person vnActual [] (some []) = (.httpAbort 400 "Not a JSON", []) ∧
    create_person vnActual [] (some [("name", .int 123)])
      = (.exc .attributeError, []) := by
  decide

/-- Claim C4: a malformed token never yields the claimed 404: on the code
the `Person.validate_name` call raises `AttributeError`; and even with that
guard behaving as the spec intends, `Person.validate_id` evaluates
`"abc" > 0` — an unordered `str`/`int` comparison — raising `TypeError`, so
Get answers an internal error, not 404, for "abc" and "-5". -/
theorem c4_malformed_token_internal_error :
    view_person_by_id vnActual [] (.str "abc") = (.exc .attributeError, []) ∧
    view_person_by_id vnSpec [] (.str "abc") = (.exc .typeError, []) ∧
    view_person_by_id vnSpec [] (.str "-5") = (.exc .typeError, []) := by
  decide

/-- Claim C9: Delete evaluated on the code.  On the store holding Alice,
`DELETE /Alice` raises `AttributeError` (no 204); with `validate_name`
behaving as the spec intends the delete does answer 204 with an empty
body and removes the row, but the follow-up `GET /Alice` and `GET /1`
raise `TypeError` inside `validate_id` (HTTP 500), not the claimed 404. -/
theorem c9_delete_then_get_eval :
    delete_person vnActual [Person.mk 1 "Alice"] (.str "Alice")
      = (.exc .attributeError, [Person.mk 1 "Alice"]) ∧
    delete_person vnSpec [Person.mk 1 "Alice"] (.str "Alice")
      = (.ok 204 .empty, []) ∧
    view_person_by_id vnSpec [] (.str "Alice") = (.exc .typeError, []) ∧
    view_person_by_id vnSpec [] (.str "1") = (.exc .typeError, []) := by
  decide

/-- Claim C10: the `Person` class defines only the two columns and
`validate_id`; every handler that validates a name or resolves a token
calls `Person.validate_name`, whose attribute lookup therefore raises
`AttributeError` instead of returning a boolean — Get and Delete on every
input, Create and Update on every body carrying a `name` key. -/
theorem c10_validate_name_lookup_fails :
    "validate_name" ∉ Person.classAttrs ∧
    "validate_id" ∈ Person.classAttrs ∧
    (∀ (st : Store) (tok : PyVal),
      view_person_by_id vnActual st tok = (.exc .attributeError, st)) ∧
    (∀ (st : Store) (tok : PyVal),
      delete_person vnActual st tok = (.exc .attributeError, st)) ∧
    (∀ (st : Store) (fields : JsonBody) (v : PyVal), getName fields = some v →
      create_person vnActual st (some fields) = (.exc .attributeError, st)) ∧
    (∀ (st : Store) (tok : PyVal) (fields : JsonBody) (v : PyVal),
      getName fields = some v →
      update_person vnActual st tok (some fields) = (.exc .attributeError, st)) := by
  have hv : ∀ v, vnActual v = .error .attributeError := fun v => rfl
  refine ⟨by decide, by decide, ?_, ?_, ?_, ?_⟩
  · intro st tok
    unfold view_person_by_id resolveTok
    rw [hv]
  · intro st tok
    unfold delete_person resolveTok
    rw [hv]
  · intro st fields v h
    have hne : fields ≠ [] := by
      intro he; subst he; simp [getName] at h
    simp [create_person, hne, h, hv v]
  · intro st tok fields v h
    have hne : fields ≠ [] := by
      intro he; subst he; simp [getName] at h
    simp [update_person, hne, h, hv v]

/-- Witness for C10: the lookup failure at concrete requests. -/
theorem c10_witness :
    view_person_by_id vnActual [] (.str "x") = (.exc .attributeError, []) ∧
    create_person vnActual [] (some [("name", .str "y")])
      = (.exc .attributeError, []) :=
  ⟨c10_validate_name_lookup_fails.2.2.1 [] (.str "x"),
   c10_validate_name_lookup_fails.2.2.2.2.1 [] [("name", .str "y")]
     (.str "y") rfl⟩

/-- Create leaves the `name` column duplicate-free: every path either
keeps the store or passes the commit-time constraint check. -/
theorem create_preserves_nodup (vn : PyVal → Except PyErr Bool) (st : Store)
    (body : Option JsonBody) (h : (namesOf st).Nodup) :
    (namesOf (create_person vn st body).2).Nodup := by
  unfold create_person
  rcases body with _ | fields
  · exact h
  · dsimp only
    split
    · exact h
    · split
      · exact h
      · split
        · exact h
        · exact h
        · split
          · next st2 hcm => exact commit_ok_nodup _ _ hcm
          · exact h

/-- Update leaves the `name` column duplicate-free. -/
theorem update_preserves_nodup (vn : PyVal → Except PyErr Bool) (st : Store)
    (tok : PyVal) (body : Option JsonBody) (h : (namesOf st).Nodup) :
    (namesOf (update_person vn st tok body).2).Nodup := by
  unfold update_person
  rcases body with _ | fields
  · exact h
  · dsimp only
    split
    · exact h
    · split
      · exact h
      · split
        · exact h
        · exact h
        · split
          · exact h
          · exact h
          · split
            · next st2 hcm => exact commit_ok_nodup _ _ hcm
            · exact h

/-- Delete leaves the `name` column duplicate-free. -/
theorem delete_preserves_nodup (vn : PyVal → Except PyErr Bool) (st : Store)
    (tok : PyVal) (h : (namesOf st).Nodup) :
    (namesOf (delete_person vn st tok).2).Nodup := by
  unfold delete_person
  split
  · exact h
  · exact h
  · dsimp only
    split
    · next st2 hcm => exact commit_ok_nodup _ _ hcm
    · exact h

/-- Claim C5: in every store reachable from the empty table through the
five handlers, no two Person rows share a `name` — each mutation either
fails before writing or passes the `unique=True` constraint at commit, for
any behaviour of the `Person.validate_name` call. -/
theorem c5_unique_names_invariant (vn : PyVal → Except PyErr Bool)
    (st : Store) (h : Reachable vn st) : (namesOf st).Nodup := by
  induction h with
  | empty => simp [namesOf]
  | list st _ ih => exact ih
  | get st tok _ ih =>
    rw [show (view_person_by_id vn st tok).2 = st from
      view_person_by_id_store vn st tok]
    exact ih
  | create st body _ ih => exact create_preserves_nodup vn st body ih
  | update st tok body _ ih => exact update_preserves_nodup vn st tok body ih
  | delete st tok _ ih => exact delete_preserves_nodup vn st tok ih

/-- Witness for C5: the store reached by one successful create. -/
theorem c5_witness :
    (namesOf (create_person vnSpec []
      (some [("name", PyVal.str "Alice")])).2).Nodup :=
  c5_unique_names_invariant vnSpec _
    (Reachable.create [] (some [("name", PyVal.str "Alice")]) Reachable.empty)

/-- Claim C6: with the `Person.validate_name` call behaving as the spec
describes it, every Create that answers 201 and every Update that answers
200 stores exactly the HTML-escaped form of the `name` supplied in the
body, and the returned record is a row of the resulting store. -/
theorem c6_name_escaped_before_storage :
    (∀ (st st2 : Store) (fields : JsonBody) (s : String) (p : Person),
      getName fields = some (.str s) →
      create_person vnSpec st (some fields) = (.ok 201 (.person p), st2) →
      p.name = escape s ∧ p ∈ st2) ∧
    (∀ (st st2 : Store) (tok : PyVal) (fields : JsonBody) (s : String)
      (p : Person),
      getName fields = some (.str s) →
      update_person vnSpec st tok (some fields) = (.ok 200 (.person p), st2) →
      p.name = escape s ∧ p ∈ st2) := by
  constructor
  · intro st st2 fields s p hn hc
    have hne : fields ≠ [] := by intro he; subst he; simp [getName] at hn
    simp only [create_person, if_neg hne, hn] at hc
    simp only [vnSpec, validate_name_spec] at hc
    by_cases hs : s = ""
    · rw [hs] at hc; simp at hc
    · rw [show (s == "") = false from beq_eq_false_iff_ne.mpr hs,
        Bool.not_false] at hc
      try dsimp only [] at hc
      split at hc
      · next st3 hcm =>
        have heq := commit_ok_eq _ _ hcm
        simp only [Prod.mk.injEq, Outcome.ok.injEq, RespBody.person.injEq] at hc
        obtain ⟨⟨-, hp⟩, hst⟩ := hc
        subst hp
        subst hst
        subst heq
        exact ⟨rfl, List.mem_append_right st (List.mem_singleton.mpr rfl)⟩
      · simp at hc
  · intro st st2 tok fields s p hn hc
    have hne : fields ≠ [] := by intro he; subst he; simp [getName] at hn
    simp only [update_person, if_neg hne, hn] at hc
    simp only [vnSpec, validate_name_spec] at hc
    by_cases hs : s = ""
    · rw [hs] at hc; simp at hc
    · rw [show (s == "") = false from beq_eq_false_iff_ne.mpr hs,
        Bool.not_false] at hc
      try dsimp only [] at hc
      split at hc
      · simp at hc
      · simp at hc
      · next p0 hres =>
        try dsimp only [] at hc
        split at hc
        · next st3 hcm =>
          have heq := commit_ok_eq _ _ hcm
          simp only [Prod.mk.injEq, Outcome.ok.injEq, RespBody.person.injEq]
            at hc
          obtain ⟨⟨-, hp⟩, hst⟩ := hc
          subst hp
          subst hst
          subst heq
          refine ⟨rfl, ?_⟩
          have hmem := resolve_found_mem vnSpec st tok p0 hres
          have := List.mem_map_of_mem
            (fun q => if q.id = p0.id then { q with name := escapeVal (.str s) }
              else q) hmem
          simpa using this
        · simp at hc

/-- Witness for C6: a concrete successful create (of "Bob") and a concrete
successful update (of Alice to "Dave"). -/
theorem c6_witness :
    ((Person.mk 1 "Bob").name = escape "Bob" ∧
      Person.mk 1 "Bob" ∈ ([Person.mk 1 "Bob"] : Store)) ∧
    ((Person.mk 1 "Dave").name = escape "Dave" ∧
      Person.mk 1 "Dave" ∈ ([Person.mk 1 "Dave"] : Store)) :=
  ⟨c6_name_escaped_before_storage.1 [] [Person.mk 1 "Bob"]
      [("name", PyVal.str "Bob")] "Bob" (Person.mk 1 "Bob")
      (by decide) (by decide),
   c6_name_escaped_before_storage.2 [Person.mk 1 "Alice"]
      [Person.mk 1 "Dave"] (PyVal.str "Alice") [("name", PyVal.str "Dave")]
      "Dave" (Person.mk 1 "Dave") (by decide) (by decide)⟩

/-- Claim C7: List takes no input beyond the store, always answers 200
with every row ordered by ascending `id` (the empty array on the empty
store), never fails and never writes the store. -/
theorem c7_list_returns_all_sorted (st : Store) :
    view_persons st = (.ok 200 (.persons (sortById st)), st) ∧
    List.Sorted ridRel (sortById st) ∧
    List.Perm (sortById st) st :=
  ⟨rfl, List.sorted_insertionSort ridRel st, List.perm_insertionSort ridRel st⟩

/-- Claim C8: with the `Person.validate_name` call behaving as the spec
describes it, a 200 Update rewrites the store by changing only the `name`
of the rows carrying the resolved primary key: the `id` column is
pointwise unchanged and every other row is untouched. -/
theorem c8_update_changes_only_name (st st2 : Store) (tok : PyVal)
    (fields : JsonBody) (b : RespBody)
    (h : update_person vnSpec st tok (some fields) = (.ok 200 b, st2)) :
    st2.map (·.id) = st.map (·.id) ∧
    ∃ pid newName, st2 = st.map
      (fun q => if q.id = pid then { q with name := newName } else q) := by
  simp only [update_person] at h
  split at h
  · simp at h
  · split at h
    · simp at h
    · next nameV hname =>
      split at h
      · next e hv => simp [vnSpec] at hv
      · simp at h
      · split at h
        · simp at h
        · simp at h
        · next p0 hres =>
          try dsimp only [] at h
          split at h
          · next st3 hcm =>
            have heq := commit_ok_eq _ _ hcm
            simp only [Prod.mk.injEq] at h
            have hst : st2 = st.map (fun q =>
                if q.id = p0.id then { q with name := escapeVal nameV }
                else q) := by
              rw [← h.2, heq]
            refine ⟨?_, p0.id, escapeVal nameV, hst⟩
            rw [hst, List.map_map]
            apply List.map_congr_left
            intro q _
            by_cases hq : q.id = p0.id <;> simp [hq]
          · simp at h

/-- Witness for C8: the concrete 200 update of Alice to "Bob". -/
theorem c8_witness :
    ([Person.mk 1 "Bob"] : Store).map (·.id)
      = ([Person.mk 1 "Alice"] : Store).map (·.id) ∧
    ∃ pid newName, ([Person.mk 1 "Bob"] : Store)
      = ([Person.mk 1 "Alice"] : Store).map
        (fun q => if q.id = pid then { q with name := newName } else q) :=
  c8_update_changes_only_name [Person.mk 1 "Alice"] [Person.mk 1 "Bob"]
    (PyVal.str "Alice") [("name", PyVal.str "Bob")]
    (RespBody.person (Person.mk 1 "Bob")) (by decide)

end CrudApi
